import Mathlib

/-!
# Shallow embedding of `src/market_engine_config.py`

The module defines three dataclasses (`ModelConfig`, `DataConfig`,
`AnomalyConfig`) whose `__post_init__` hooks populate `None` fields with
literal defaults, a firebase/secrets loader reading environment variables
with literal fallbacks, and a `MarketEngineConfig` manager whose
constructor builds the sub-records and then ensures the directory
component of its config path exists on the filesystem.

Modelling conventions:
* Python `float` literals are modelled as exact rationals (`ℚ`); the code
  performs no floating-point arithmetic on them, only stores them
  (and `0.4 + 0.35 + 0.25` is exactly `1.0` in IEEE doubles as well).
* Python `dict`/`list` become association lists / lists.
* The process environment is a function `String → Option String`
  (`none` = variable absent; `some ""` = present but empty).
* The filesystem is a state: a list of existing directory paths plus a
  list of paths on which the OS-level `os.makedirs` call raises
  (permissions, invalid path, ...).  A raised exception is an
  `Except.error`; the Python construction path contains no `try/except`,
  which the embedding mirrors by never handling the `error` case.
* `os.path.dirname` is embedded following CPython's `posixpath.dirname`.
-/

/-- Python `os.path.dirname` (POSIX): everything up to the last `/`,
with trailing slashes stripped from the head unless the head consists
only of slashes; the empty string when there is no `/`. -/
def dirname (p : String) : String :=
  -- head = p[:p.rfind('/') + 1]
  let head : List Char := (p.toList.reverse.dropWhile (fun c => c ≠ '/')).reverse
  -- if head and head != '/' * len(head): head = head.rstrip('/')
  if head ≠ [] ∧ ¬ head.all (fun c => c = '/') then
    { data := (head.reverse.dropWhile (fun c => c = '/')).reverse }
  else
    { data := head }

/-- Python `os.getenv(key, default)`: the variable's value when the
variable is present in the environment (even when empty), otherwise the
supplied default. -/
def getenv (env : String → Option String) (key default_ : String) : String :=
  (env key).getD default_

/-- An `OSError` raised by the OS-level directory-creation primitive,
carrying the offending path. -/
inductive OSErr where
  | oserror (path : String) : OSErr
deriving DecidableEq, Repr

/-- Filesystem state: the set of existing directories, and the paths on
which the OS-level `os.makedirs` primitive fails (permissions, invalid
path, ...). -/
structure FileSystem where
  dirs : List String
  mkdirFailing : List String
deriving DecidableEq, Repr

/-- Python `os.path.exists` restricted to directories, on the modelled
filesystem state. -/
def pathExists (fs : FileSystem) (p : String) : Bool :=
  fs.dirs.contains p

/-- The proper ancestor directories of a path, obtained by iterating
`dirname` (fuelled by the path length; `dirname` is decreasing except at
its fixed points, where iteration stops). -/
def ancestorsAux : Nat → String → List String
  | 0, _ => []
  | n + 1, d =>
    let p := dirname d
    if p = "" ∨ p = d then [] else p :: ancestorsAux n p

/-- All ancestor directories of `d` (not including `d` itself). -/
def ancestors (d : String) : List String :=
  ancestorsAux d.length d

/-- Python `os.makedirs(d, exist_ok=True)`: succeeds immediately when
`d` already exists; otherwise either raises `OSError` (when the OS-level
creation of `d` fails) or creates `d` together with its missing ancestor
directories. -/
def makedirs (fs : FileSystem) (d : String) : Except OSErr FileSystem :=
  if pathExists fs d then
    Except.ok fs
  else if fs.mkdirFailing.contains d then
    Except.error (OSErr.oserror d)
  else
    Except.ok { fs with dirs := d :: (ancestors d ++ fs.dirs) }

/-- `ModelConfig` dataclass: field values after the dataclass
constructor has run (before `__post_init__`); `ensemble_weights` is
`Option`al because its dataclass default is `None`. -/
structure ModelConfig where
  model_type : String
  training_window_days : Int
  validation_split : ℚ
  retraining_threshold : ℚ
  ensemble_weights : Option (List (String × ℚ))
deriving DecidableEq, Repr

/-- `ModelConfig.__post_init__`: populate `ensemble_weights` with the
literal default mapping when it is `None`. -/
def ModelConfig.post_init (c : ModelConfig) : ModelConfig :=
  if c.ensemble_weights = none then
    let w : List (String × ℚ) :=
      [("lstm", 0.4), ("gradient_boosting", 0.35), ("statistical", 0.25)]
    { c with ensemble_weights := some w }
  else
    c

/-- Constructing a `ModelConfig`: the dataclass constructor stores the
arguments and then runs `__post_init__` (omitting `ensemble_weights` at a
Python call site passes its dataclass default `None`, i.e. `none` here;
omitting any other field passes its literal default). -/
def ModelConfig.make (model_type : String) (training_window_days : Int)
    (validation_split retraining_threshold : ℚ)
    (ensemble_weights : Option (List (String × ℚ))) : ModelConfig :=
  ModelConfig.post_init
    { model_type := model_type
      training_window_days := training_window_days
      validation_split := validation_split
      retraining_threshold := retraining_threshold
      ensemble_weights := ensemble_weights }

/-- `DataConfig` dataclass: field values after the dataclass constructor
has run (before `__post_init__`); the three list fields are `Option`al
because their dataclass defaults are `None`. -/
structure DataConfig where
  symbols : Option (List String)
  timeframes : Option (List String)
  features : Option (List String)
  max_retries : Int
  retry_delay_seconds : Int
  cache_ttl_minutes : Int
deriving DecidableEq, Repr

/-- `DataConfig.__post_init__`: populate each list field that is `None`
with its literal default sequence, in source order. -/
def DataConfig.post_init (c : DataConfig) : DataConfig :=
  let c := if c.symbols = none then
    { c with symbols := some ["BTC/USDT", "ETH/USDT", "SOL/USDT"] } else c
  let c := if c.timeframes = none then
    { c with timeframes := some ["1h", "4h", "1d"] } else c
  let defFeatures : List String :=
    ["open", "high", "low", "close", "volume",
     "rsi_14", "macd", "bollinger_upper", "bollinger_lower",
     "volume_ma_20", "price_change_24h"]
  let c := if c.features = none then
    { c with features := some defFeatures } else c
  c

/-- Constructing a `DataConfig`: the dataclass constructor stores the
arguments and then runs `__post_init__` (omitting a list field at a
Python call site passes its dataclass default `None`). -/
def DataConfig.make (symbols timeframes features : Option (List String))
    (max_retries retry_delay_seconds cache_ttl_minutes : Int) : DataConfig :=
  DataConfig.post_init
    { symbols := symbols
      timeframes := timeframes
      features := features
      max_retries := max_retries
      retry_delay_seconds := retry_delay_seconds
      cache_ttl_minutes := cache_ttl_minutes }

/-- `AnomalyConfig` dataclass (no `__post_init__`). -/
structure AnomalyConfig where
  z_score_threshold : ℚ
  prediction_error_threshold : ℚ
  consecutive_failures_before_reset : Int
  health_check_interval_minutes : Int
  auto_recovery_enabled : Bool
deriving DecidableEq, Repr

/-- `AnomalyConfig()` constructed with no arguments: every field takes
its dataclass default literal. -/
def AnomalyConfig.make : AnomalyConfig :=
  { z_score_threshold := 3.0
    prediction_error_threshold := 0.15
    consecutive_failures_before_reset := 5
    health_check_interval_minutes := 30
    auto_recovery_enabled := true }

/-- The firebase/secrets record built by
`MarketEngineConfig._load_firebase_config`.  The source file is truncated
mid-expression immediately after the `project_id` entry (inside the
`database_url` entry), so only the `project_id` field is visible and
modelled; no claim concerns the truncated remainder. -/
structure FirebaseConfig where
  project_id : String
deriving DecidableEq, Repr

/-- `MarketEngineConfig._load_firebase_config` (visible portion):
`project_id` is read from the `FIREBASE_PROJECT_ID` environment variable
with literal fallback `"market-prediction-engine"`.  It performs only
`os.getenv` calls, which never raise, so it is a total function. -/
def load_firebase_config (env : String → Option String) : FirebaseConfig :=
  { project_id := getenv env "FIREBASE_PROJECT_ID" "market-prediction-engine" }

/-- `MarketEngineConfig._ensure_config_directory`: compute the directory
component of the config path; when it is non-empty (Python string
truthiness) and does not exist, call `os.makedirs(..., exist_ok=True)`.
No exception handler is present. -/
def ensure_config_directory (fs : FileSystem) (config_path : String) :
    Except OSErr FileSystem :=
  let config_dir := dirname config_path
  if config_dir ≠ "" ∧ pathExists fs config_dir = false then
    makedirs fs config_dir
  else
    Except.ok fs

/-- The `MarketEngineConfig` manager's own state after `__init__`. -/
structure MarketEngineConfig where
  config_path : String
  data_config : DataConfig
  model_config : ModelConfig
  anomaly_config : AnomalyConfig
  firebase_config : FirebaseConfig
deriving DecidableEq, Repr

/-- `MarketEngineConfig.__init__(config_path)`: store the path, build
`DataConfig()`, `ModelConfig()`, `AnomalyConfig()` with no arguments
(every dataclass default passed), load the firebase record from the
environment, then ensure the config directory exists.  An `OSError`
raised by directory creation propagates (no handler anywhere on this
path); on success the constructed manager and the updated filesystem are
returned. -/
def MarketEngineConfig.init (env : String → Option String) (fs : FileSystem)
    (config_path : String) : Except OSErr (MarketEngineConfig × FileSystem) :=
  let data_config := DataConfig.make none none none 3 5 15
  let model_config := ModelConfig.make "ensemble" 90 0.2 0.85 none
  let anomaly_config := AnomalyConfig.make
  let firebase_config := load_firebase_config env
  let self : MarketEngineConfig :=
    { config_path := config_path
      data_config := data_config
      model_config := model_config
      anomaly_config := anomaly_config
      firebase_config := firebase_config }
  match ensure_config_directory fs self.config_path with
  | Except.error e => Except.error e
  | Except.ok fs2 => Except.ok (self, fs2)

/-- The manager record as assembled by `__init__` before the
directory-ensuring step (the pure part of construction). -/
def MarketEngineConfig.built (env : String → Option String)
    (config_path : String) : MarketEngineConfig :=
  { config_path := config_path
    data_config := DataConfig.make none none none 3 5 15
    model_config := ModelConfig.make "ensemble" 90 0.2 0.85 none
    anomaly_config := AnomalyConfig.make
    firebase_config := load_firebase_config env }

/-- `true` iff the construction completed without a raised exception. -/
def constructionOk {α : Type} (r : Except OSErr α) : Bool :=
  match r with
  | Except.ok _ => true
  | Except.error _ => false

/-! ## Concrete data used by witnesses -/

/-- An environment with no variables set. -/
def emptyEnv : String → Option String := fun _ => none

/-- An environment with only `FIREBASE_PROJECT_ID` set, to `"my-proj"`. -/
def envWithProj : String → Option String :=
  fun k => if k = "FIREBASE_PROJECT_ID" then some "my-proj" else none

/-- An environment with `FIREBASE_PROJECT_ID` set to the empty string. -/
def envWithEmptyProj : String → Option String :=
  fun k => if k = "FIREBASE_PROJECT_ID" then some "" else none

/-- An empty filesystem on which every `makedirs` call succeeds. -/
def fsEmpty : FileSystem := { dirs := [], mkdirFailing := [] }

/-- The filesystem after creating directory `config` in `fsEmpty`. -/
def fsWithConfig : FileSystem := { dirs := ["config"], mkdirFailing := [] }

/-- An empty filesystem on which OS-level creation of `config` fails
(e.g. permissions). -/
def fsFailingConfig : FileSystem := { dirs := [], mkdirFailing := ["config"] }

/-- The manager built by a construction with path
`"config/x.json"` in the empty environment. -/
def cfgConfigX : MarketEngineConfig :=
  MarketEngineConfig.built emptyEnv "config/x.json"

/-! ## Sanity checks of the `os.path.dirname` embedding -/

example : dirname "config/market_engine_config.json" = "config" := by decide
example : dirname "file.json" = "" := by decide
example : dirname "a/b/c.json" = "a/b" := by decide
example : dirname "a/b/" = "a/b" := by decide
example : dirname "/a" = "/" := by decide

/-! ## Helper lemmas -/

/-- `__init__` is the pure record assembly followed by the
directory-ensuring step. -/
theorem init_eq (env : String → Option String) (fs : FileSystem)
    (path : String) :
    MarketEngineConfig.init env fs path =
      match ensure_config_directory fs path with
      | Except.error e => Except.error e
      | Except.ok fs2 => Except.ok (MarketEngineConfig.built env path, fs2) :=
  rfl

/-- A successful construction means the directory-ensuring step
succeeded with the same final filesystem. -/
theorem init_ok_ensure (env : String → Option String) (fs : FileSystem)
    (path : String) (cfg : MarketEngineConfig) (fs2 : FileSystem)
    (h : MarketEngineConfig.init env fs path = Except.ok (cfg, fs2)) :
    ensure_config_directory fs path = Except.ok fs2 := by
  rw [init_eq] at h
  cases he : ensure_config_directory fs path with
  | error e => rw [he] at h; exact absurd h (by simp)
  | ok fs3 => rw [he] at h; simp only [Except.ok.injEq, Prod.mk.injEq] at h
              rw [h.2]

/-- If the directory-ensuring step succeeds on `fs`, construction from
`fs` succeeds with that step's resulting filesystem. -/
theorem init_ok_of_ensure (env : String → Option String) (fs : FileSystem)
    (path : String) (fs2 : FileSystem)
    (h : ensure_config_directory fs path = Except.ok fs2) :
    ∃ cfg, MarketEngineConfig.init env fs path = Except.ok (cfg, fs2) := by
  refine ⟨MarketEngineConfig.built env path, ?_⟩
  rw [init_eq, h]

/-- After a successful directory-ensuring step whose directory component
is non-empty, that directory exists. -/
theorem ensure_ok_exists (fs : FileSystem) (path : String) (fs2 : FileSystem)
    (h1 : dirname path ≠ "")
    (h : ensure_config_directory fs path = Except.ok fs2) :
    pathExists fs2 (dirname path) = true := by
  unfold ensure_config_directory at h
  by_cases h2 : pathExists fs (dirname path) = false
  · rw [if_pos ⟨h1, h2⟩] at h
    unfold makedirs at h
    rw [if_neg (by simp [h2])] at h
    by_cases h3 : fs.mkdirFailing.contains (dirname path) = true
    · rw [if_pos h3] at h; exact absurd h (by simp)
    · rw [if_neg h3] at h
      simp only [Except.ok.injEq] at h
      rw [← h]
      simp [pathExists]
  · rw [if_neg (by simp [h2])] at h
    simp only [Except.ok.injEq] at h
    rw [← h]
    simpa using h2

/-- The directory-ensuring step is idempotent: after a success, running
it again on the resulting filesystem succeeds and changes nothing. -/
theorem ensure_idempotent (fs : FileSystem) (path : String) (fs2 : FileSystem)
    (h : ensure_config_directory fs path = Except.ok fs2) :
    ensure_config_directory fs2 path = Except.ok fs2 := by
  by_cases h1 : dirname path = ""
  · unfold ensure_config_directory
    rw [if_neg (by simp [h1])]
  · have hex := ensure_ok_exists fs path fs2 h1 h
    unfold ensure_config_directory
    rw [if_neg (by simp [hex])]

/-! ## Claims -/

/-- C1: for every config path with a non-empty directory component that
does not exist before construction, when `MarketEngineConfig`
construction returns (succeeds), that directory exists on the
filesystem. -/
theorem C1_parent_dir_created (env : String → Option String)
    (fs : FileSystem) (path : String) (cfg : MarketEngineConfig)
    (fs2 : FileSystem)
    (h1 : dirname path ≠ "")
    (h2 : pathExists fs (dirname path) = false)
    (h3 : MarketEngineConfig.init env fs path = Except.ok (cfg, fs2)) :
    pathExists fs2 (dirname path) = true :=
  ensure_ok_exists fs path fs2 h1 (init_ok_ensure env fs path cfg fs2 h3)

/-- Witness for C1: constructing with path `"config/x.json"` on an empty
filesystem makes directory `config` exist. -/
theorem C1_parent_dir_created_witness :
    pathExists fsWithConfig (dirname "config/x.json") = true :=
  C1_parent_dir_created emptyEnv fsEmpty "config/x.json" cfgConfigX
    fsWithConfig (by decide) (by decide) rfl

/-- C2: after a successful construction, constructing again with the
same path does not raise: the directory already exists, so the
directory-ensuring step succeeds without recreating it, and the
filesystem is unchanged. -/
theorem C2_second_construction_ok (env env2 : String → Option String)
    (fs : FileSystem) (path : String) (cfg : MarketEngineConfig)
    (fs2 : FileSystem)
    (h : MarketEngineConfig.init env fs path = Except.ok (cfg, fs2)) :
    ∃ cfg2, MarketEngineConfig.init env2 fs2 path = Except.ok (cfg2, fs2) :=
  init_ok_of_ensure env2 fs2 path fs2
    (ensure_idempotent fs path fs2 (init_ok_ensure env fs path cfg fs2 h))

/-- Witness for C2: after the construction of the C1 witness, a second
construction with path `"config/x.json"` succeeds and leaves the
filesystem unchanged. -/
theorem C2_second_construction_ok_witness :
    ∃ cfg2, MarketEngineConfig.init emptyEnv fsWithConfig "config/x.json" =
      Except.ok (cfg2, fsWithConfig) :=
  C2_second_construction_ok emptyEnv emptyEnv fsEmpty "config/x.json"
    cfgConfigX fsWithConfig rfl

/-- C3: when the OS-level directory creation fails, the `OSError`
propagates out of the constructor uncaught, carrying the offending
directory. -/
theorem C3_mkdir_error_propagates (env : String → Option String)
    (fs : FileSystem) (path : String)
    (h1 : dirname path ≠ "")
    (h2 : pathExists fs (dirname path) = false)
    (h3 : fs.mkdirFailing.contains (dirname path) = true) :
    MarketEngineConfig.init env fs path =
      Except.error (OSErr.oserror (dirname path)) := by
  rw [init_eq]
  unfold ensure_config_directory
  rw [if_pos ⟨h1, h2⟩]
  unfold makedirs
  rw [if_neg (by simp [h2]), if_pos h3]

/-- Witness for C3: with OS-level creation of `config` failing,
construction with path `"config/x.json"` raises that `OSError`. -/
theorem C3_mkdir_error_propagates_witness :
    MarketEngineConfig.init emptyEnv fsFailingConfig "config/x.json" =
      Except.error (OSErr.oserror (dirname "config/x.json")) :=
  C3_mkdir_error_propagates emptyEnv fsFailingConfig "config/x.json"
    (by decide) (by decide) (by decide)

/-- C9: for a bare filename (empty directory component), construction
succeeds, skips the directory-ensuring step entirely, and leaves the
filesystem unchanged. -/
theorem C9_bare_filename_no_mutation (env : String → Option String)
    (fs : FileSystem) (path : String)
    (h : dirname path = "") :
    ∃ cfg, MarketEngineConfig.init env fs path = Except.ok (cfg, fs) := by
  refine init_ok_of_ensure env fs path fs ?_
  unfold ensure_config_directory
  rw [if_neg (by simp [h])]

/-- Witness for C9: constructing with bare filename `"file.json"` on an
empty filesystem succeeds and mutates nothing. -/
theorem C9_bare_filename_no_mutation_witness :
    ∃ cfg, MarketEngineConfig.init emptyEnv fsEmpty "file.json" =
      Except.ok (cfg, fsEmpty) :=
  C9_bare_filename_no_mutation emptyEnv fsEmpty "file.json" (by decide)

/-- C4: `project_id` resolves to the environment value when
`FIREBASE_PROJECT_ID` is set, and to the literal
`"market-prediction-engine"` when it is unset; `_load_firebase_config`
is total, so no error is raised in either case. -/
theorem C4_firebase_project_id_resolution (env : String → Option String)
    (v : String) :
    (env "FIREBASE_PROJECT_ID" = some v →
      (load_firebase_config env).project_id = v) ∧
    (env "FIREBASE_PROJECT_ID" = none →
      (load_firebase_config env).project_id = "market-prediction-engine") := by
  constructor <;> intro h <;> simp [load_firebase_config, getenv, h]

/-- Witness for C4: with `FIREBASE_PROJECT_ID=my-proj` the record's
`project_id` is `"my-proj"`; with it unset, the literal default. -/
theorem C4_firebase_project_id_resolution_witness :
    (load_firebase_config envWithProj).project_id = "my-proj" ∧
    (load_firebase_config emptyEnv).project_id = "market-prediction-engine" :=
  ⟨(C4_firebase_project_id_resolution envWithProj "my-proj").1 (by decide),
   (C4_firebase_project_id_resolution emptyEnv "my-proj").2 rfl⟩

/-- C5: a `DataConfig` constructed with the three list fields omitted
gets exactly the documented default sequences; each unset list field is
populated with its default regardless of whether the others were
supplied. -/
theorem C5_data_defaults :
    ((DataConfig.make none none none 3 5 15).symbols =
        some ["BTC/USDT", "ETH/USDT", "SOL/USDT"] ∧
      (DataConfig.make none none none 3 5 15).timeframes =
        some ["1h", "4h", "1d"] ∧
      (DataConfig.make none none none 3 5 15).features =
        some ["open", "high", "low", "close", "volume",
              "rsi_14", "macd", "bollinger_upper", "bollinger_lower",
              "volume_ma_20", "price_change_24h"]) ∧
    (∀ (t f : Option (List String)) (mr rd ct : Int),
      (DataConfig.make none t f mr rd ct).symbols =
        some ["BTC/USDT", "ETH/USDT", "SOL/USDT"]) ∧
    (∀ (s f : Option (List String)) (mr rd ct : Int),
      (DataConfig.make s none f mr rd ct).timeframes =
        some ["1h", "4h", "1d"]) ∧
    (∀ (s t : Option (List String)) (mr rd ct : Int),
      (DataConfig.make s t none mr rd ct).features =
        some ["open", "high", "low", "close", "volume",
              "rsi_14", "macd", "bollinger_upper", "bollinger_lower",
              "volume_ma_20", "price_change_24h"]) := by
  refine ⟨⟨rfl, rfl, rfl⟩, ?_, ?_, ?_⟩
  · intro t f mr rd ct; cases t <;> cases f <;> rfl
  · intro s f mr rd ct; cases s <;> cases f <;> rfl
  · intro s t mr rd ct; cases s <;> cases t <;> rfl

/-- C6: a `ModelConfig` constructed with `ensemble_weights` omitted gets
exactly the default mapping, whose three values sum to `1.0`. -/
theorem C6_model_default_weights :
    (ModelConfig.make "ensemble" 90 0.2 0.85 none).ensemble_weights =
      some [("lstm", 0.4), ("gradient_boosting", 0.35),
            ("statistical", 0.25)] ∧
    ((((ModelConfig.make "ensemble" 90 0.2 0.85 none).ensemble_weights).getD
        []).map Prod.snd).sum = 1.0 := by
  constructor
  · rfl
  · norm_num [ModelConfig.make, ModelConfig.post_init]

/-- C7: a supplied (non-`None`) `ensemble_weights` mapping is kept
exactly as given, for any values of the other fields; in particular a
supplied empty mapping stays empty. -/
theorem C7_model_weights_kept :
    (∀ (w : List (String × ℚ)) (mt : String) (twd : Int) (vs rt : ℚ),
      (ModelConfig.make mt twd vs rt (some w)).ensemble_weights = some w) ∧
    (ModelConfig.make "ensemble" 90 0.2 0.85 (some [])).ensemble_weights =
      some [] := by
  constructor
  · intro w mt twd vs rt; rfl
  · rfl

/-- C8: an `AnomalyConfig` constructed with no arguments has exactly the
five documented default values. -/
theorem C8_anomaly_defaults :
    AnomalyConfig.make.z_score_threshold = 3.0 ∧
    AnomalyConfig.make.prediction_error_threshold = 0.15 ∧
    AnomalyConfig.make.consecutive_failures_before_reset = 5 ∧
    AnomalyConfig.make.health_check_interval_minutes = 30 ∧
    AnomalyConfig.make.auto_recovery_enabled = true :=
  ⟨rfl, rfl, rfl, rfl, rfl⟩

/-- C10: when `FIREBASE_PROJECT_ID` is present but empty, `project_id`
is the empty string, not the fallback default: `os.getenv` falls back
only on absence, not on emptiness. -/
theorem C10_firebase_project_id_empty (env : String → Option String)
    (h : env "FIREBASE_PROJECT_ID" = some "") :
    (load_firebase_config env).project_id = "" ∧
    (load_firebase_config env).project_id ≠ "market-prediction-engine" := by
  constructor <;> simp [load_firebase_config, getenv, h]

/-- Witness for C10: in an environment with `FIREBASE_PROJECT_ID` set to
the empty string, `project_id` is empty and differs from the default. -/
theorem C10_firebase_project_id_empty_witness :
    (load_firebase_config envWithEmptyProj).project_id = "" ∧
    (load_firebase_config envWithEmptyProj).project_id ≠
      "market-prediction-engine" :=
  C10_firebase_project_id_empty envWithEmptyProj (by decide)
